import Mathlib

/-!
Verification development for the Cargo-Sales-Bot backend.

The definitions below are a shallow embedding of the Python sources in
`backend/`: `pricing.py`, `validation.py` and `endpoints.py`.  Python floats
are modelled as exact rationals (`ℚ`), Python `None` as `Option`, raised
exceptions as `Except` values, and the SQLAlchemy store as an explicit
in-memory record list threaded through the operations.  String manipulation
is modelled on the character lists underlying `String`, with structural
recursion, so that every definition evaluates.
-/

namespace CargoBot

/-! ## String helpers (models of the Python `str` methods used) -/

/-- Modelled stdlib: `str.lower()` (ASCII, as used for cargo types and
affirmation matching). -/
def pyLower (s : String) : String := ⟨s.data.map Char.toLower⟩

/-- Modelled stdlib: `str.upper()` (ASCII, as used for booking ids and
location codes). -/
def pyUpper (s : String) : String := ⟨s.data.map Char.toUpper⟩

/-- Modelled stdlib: `str.strip()` — drop ASCII whitespace at both ends. -/
def pyStrip (s : String) : String :=
  ⟨((s.data.dropWhile Char.isWhitespace).reverse.dropWhile Char.isWhitespace).reverse⟩

/-- Split a character list at every occurrence of `sep` (accumulator is the
current chunk, reversed). -/
def splitOnCharAux (sep : Char) : List Char → List Char → List (List Char)
  | [], cur => [cur.reverse]
  | c :: rest, cur =>
    if c == sep then cur.reverse :: splitOnCharAux sep rest []
    else splitOnCharAux sep rest (c :: cur)

/-- Modelled stdlib: `s.split("-")`-style splitting on a single character, as
`String.splitOn` behaves for a one-character separator. -/
def splitOnChar (sep : Char) (s : String) : List (List Char) :=
  splitOnCharAux sep s.data []

/-- Modelled stdlib: the Python substring test `needle in hay`. -/
def strContains (hay needle : String) : Bool :=
  decide (needle.data.IsInfix hay.data)

/-- `", ".join(l)` from the clarification messages. -/
def joinComma : List String → String
  | [] => ""
  | [s] => s
  | s :: rest => s ++ ", " ++ joinComma rest

/-! ## Embedding of `backend/pricing.py` -/

/-- Modelled stdlib: Python `round(x, 2)` — round half to even at two decimal
digits, computed on the exact rational value. -/
def pyRound2 (q : ℚ) : ℚ :=
  let x := q * 100
  let n : ℤ := ⌊x⌋
  let r : ℚ := x - (n : ℚ)
  let m : ℤ :=
    if r < 1/2 then n
    else if r > 1/2 then n + 1
    else if n % 2 = 0 then n else n + 1
  (m : ℚ) / 100

/-- Modelled stdlib: Gregorian leap-year rule used by `datetime`. -/
def isLeapYear (y : ℕ) : Bool := (y % 4 == 0 && y % 100 != 0) || y % 400 == 0

/-- Modelled stdlib: number of days in a month, as `datetime` validates it. -/
def daysInMonth (y m : ℕ) : ℕ :=
  if m == 2 then (if isLeapYear y then 29 else 28)
  else if m == 4 || m == 6 || m == 9 || m == 11 then 30
  else 31

/-- Numeric value of a digit string. -/
def digitsVal (l : List Char) : ℕ := l.foldl (fun a c => a * 10 + (c.toNat - '0'.toNat)) 0

/-- A calendar date as (year, month, day). -/
abbrev Date := ℕ × ℕ × ℕ

/-- Modelled stdlib: `datetime.strptime(s, "%Y-%m-%d")`.  The year is exactly
four digits, month and day are one or two digits, the three parts are joined
by `-` with nothing trailing, and month/day must denote a real calendar date
(`datetime` range checks). `none` models the raised `ValueError`. -/
def parseYMD (s : String) : Option Date :=
  match splitOnChar '-' s with
  | [ys, ms, ds] =>
    if ys.length == 4 && ys.all Char.isDigit
        && (ms.length == 1 || ms.length == 2) && ms.all Char.isDigit
        && (ds.length == 1 || ds.length == 2) && ds.all Char.isDigit then
      let y := digitsVal ys
      let m := digitsVal ms
      let d := digitsVal ds
      if 1 ≤ y ∧ 1 ≤ m ∧ m ≤ 12 ∧ 1 ≤ d ∧ d ≤ daysInMonth y m then some (y, m, d) else none
    else none
  | _ => none

/-- `CARGO_TYPE_MULTIPLIERS` from `pricing.py`. -/
def CARGO_TYPE_MULTIPLIERS : List (String × ℚ) :=
  [("general", 1.0), ("perishable", 1.5), ("hazardous", 2.0), ("vehicles", 1.8), ("livestock", 2.5)]

/-- `CARGO_TYPE_MULTIPLIERS.get(cargo_type.lower(), 1.0)`. -/
def cargoMultiplierFor (cargo_type : String) : ℚ :=
  ((CARGO_TYPE_MULTIPLIERS.find? (fun p => p.1 == pyLower cargo_type)).map Prod.snd).getD 1.0

/-- `PEAK_SEASONS` from `pricing.py`: month ranges (inclusive). -/
def PEAK_SEASONS : List (ℕ × ℕ) := [(11, 12), (6, 8)]

/-- The peak-season block shared by `calculate_price` and
`get_price_breakdown`: an unparseable date is silently treated as non-peak
(`except ValueError: pass`), otherwise the first peak range containing the
month sets the multiplier to 1.15. -/
def peakMultiplierFor (shipping_date : String) : ℚ :=
  match parseYMD shipping_date with
  | none => 1.0
  | some (_, month, _) =>
    if PEAK_SEASONS.any (fun p => decide (p.1 ≤ month ∧ month ≤ p.2)) then 1.15 else 1.0

/-- The volume-surcharge block of `calculate_price`: `if volume and
volume > weight * 6`, then charge half the base rate on the excess of
volumetric weight (`volume * 167`) over actual weight in kg. -/
def volumeSurchargeFor (base_price_per_kg weight : ℚ) (volume : Option ℚ) : ℚ :=
  match volume with
  | some v =>
    if v ≠ 0 ∧ v > weight * 6 then
      let volumetric_weight_kg := v * 167
      if volumetric_weight_kg > weight * 1000 then
        (volumetric_weight_kg - weight * 1000) * base_price_per_kg * 0.5
      else 0
    else 0
  | none => 0

/-- `calculate_price` from `pricing.py`. -/
def calculate_price (base_price_per_kg weight : ℚ) (cargo_type shipping_date : String)
    (volume : Option ℚ) : ℚ :=
  let weight_kg := weight * 1000
  let base_cost := base_price_per_kg * weight_kg
  let cargo_multiplier := cargoMultiplierFor cargo_type
  let cost_with_cargo := base_cost * cargo_multiplier
  let volume_surcharge := volumeSurchargeFor base_price_per_kg weight volume
  let peak_multiplier := peakMultiplierFor shipping_date
  let final_price := (cost_with_cargo + volume_surcharge) * peak_multiplier
  pyRound2 final_price

/-- The dictionary returned by `get_price_breakdown`. -/
structure PriceBreakdown where
  base_cost : ℚ
  cargo_type : String
  cargo_multiplier : ℚ
  cargo_surcharge : ℚ
  volume_surcharge : ℚ
  peak_season_multiplier : ℚ
  peak_season_surcharge : ℚ
  total : ℚ
deriving Repr

/-- `get_price_breakdown` from `pricing.py` (the volume-surcharge block is a
textual duplicate of the one in `calculate_price`, duplicated here as well). -/
def get_price_breakdown (base_price_per_kg weight : ℚ) (cargo_type shipping_date : String)
    (volume : Option ℚ) : PriceBreakdown :=
  let weight_kg := weight * 1000
  let base_cost := base_price_per_kg * weight_kg
  let cargo_multiplier := cargoMultiplierFor cargo_type
  let volume_surcharge : ℚ :=
    match volume with
    | some v =>
      if v ≠ 0 ∧ v > weight * 6 then
        let volumetric_weight_kg := v * 167
        if volumetric_weight_kg > weight_kg then
          (volumetric_weight_kg - weight_kg) * base_price_per_kg * 0.5
        else 0
      else 0
    | none => 0
  let peak_multiplier := peakMultiplierFor shipping_date
  let subtotal := base_cost * cargo_multiplier + volume_surcharge
  { base_cost := pyRound2 base_cost
    cargo_type := cargo_type
    cargo_multiplier := cargo_multiplier
    cargo_surcharge := pyRound2 (base_cost * (cargo_multiplier - 1))
    volume_surcharge := pyRound2 volume_surcharge
    peak_season_multiplier := peak_multiplier
    peak_season_surcharge := pyRound2 (subtotal * (peak_multiplier - 1))
    total := pyRound2 (subtotal * peak_multiplier) }

/-! ## Embedding of `backend/validation.py` -/

/-- `VALID_CARGO_TYPES` from `validation.py`. -/
def VALID_CARGO_TYPES : List String :=
  ["general", "perishable", "hazardous", "vehicles", "livestock"]

/-- `LOCATION_MAPPINGS` from `validation.py`. -/
def LOCATION_MAPPINGS : List (String × String) :=
  [("new york", "JFK"), ("nyc", "JFK"), ("los angeles", "LAX"), ("la", "LAX"),
   ("chicago", "ORD"), ("dallas", "DFW"), ("atlanta", "ATL"), ("london", "LHR"),
   ("paris", "CDG"), ("frankfurt", "FRA"), ("tokyo", "NRT"), ("hong kong", "HKG"),
   ("sydney", "SYD"), ("dubai", "DXB"), ("mumbai", "BOM"), ("singapore", "SIN"),
   ("shanghai", "PVG")]

/-- `normalize_location` from `validation.py`. -/
def normalize_location (location : String) : String :=
  let location_lower := pyStrip (pyLower location)
  if location.length == 3 && location.data.all Char.isAlpha then pyUpper location
  else
    match LOCATION_MAPPINGS.find? (fun p => p.1 == location_lower) with
    | some p => p.2
    | none => pyUpper location

/-- `validate_location` from `validation.py`; result is
`(is_valid, normalized_code, error_message)`. -/
def validate_location (location : String) : Bool × Option String × Option String :=
  if location.length == 0 || (pyStrip location).length == 0 then
    (false, none, some "Location cannot be empty")
  else
    let normalized := normalize_location location
    if normalized.length != 3 || !(normalized.data.all Char.isAlpha) then
      (false, none, some ("Invalid location: " ++ location ++
        ". Please provide a valid city name or 3-letter airport code."))
    else (true, some normalized, none)

/-- `validate_weight` from `validation.py`. -/
def validate_weight (weight : Option ℚ) : Bool × Option String :=
  match weight with
  | none => (false, some "Weight is required")
  | some w =>
    if w ≤ 0 then (false, some "Weight must be greater than 0")
    else if w < 0.1 then (false, some "Minimum weight is 0.1 tonnes (100 kg)")
    else if w > 100 then
      (false, some "Maximum weight is 100 tonnes. For larger shipments, please contact us directly.")
    else (true, none)

/-- `validate_volume` from `validation.py`. -/
def validate_volume (volume : Option ℚ) : Bool × Option String :=
  match volume with
  | none => (true, none)
  | some v =>
    if v ≤ 0 then (false, some "Volume must be greater than 0")
    else if v > 1000 then (false, some "Maximum volume is 1000 cubic meters")
    else (true, none)

/-- Strict lexicographic order on calendar dates, as `datetime.date` compares. -/
def dateLt (a b : Date) : Bool :=
  decide (a.1 < b.1 ∨ (a.1 = b.1 ∧ (a.2.1 < b.2.1 ∨ (a.2.1 = b.2.1 ∧ a.2.2 < b.2.2))))

/-- `validate_date` from `validation.py`.  `today` models `datetime.now().date()`
and `max_date` models `today + timedelta(days=365)`; both are ambient inputs of
the embedding. -/
def validate_date (today max_date : Date) (date_str : String) :
    Bool × Option String × Option String :=
  if date_str.length == 0 then (false, none, some "Shipping date is required")
  else
    match parseYMD date_str with
    | none => (false, none, some "Invalid date format. Please use YYYY-MM-DD (e.g., 2026-02-15)")
    | some d =>
      if dateLt d today then (false, none, some "Shipping date must be in the future")
      else if dateLt max_date d then
        (false, none, some "Shipping date must be within 1 year from today")
      else (true, some date_str, none)

/-- `validate_cargo_type` from `validation.py`. -/
def validate_cargo_type (cargo_type : String) : Bool × Option String × Option String :=
  if cargo_type.length == 0 then (false, none, some "Cargo type is required")
  else
    let normalized := pyStrip (pyLower cargo_type)
    if !(VALID_CARGO_TYPES.contains normalized) then
      (false, none, some ("Invalid cargo type. Valid types are: " ++ joinComma VALID_CARGO_TYPES))
    else (true, some normalized, none)

/-- The regular expression `^[A-Z0-9]{6,12}$` from `validate_booking_id`. -/
def matchesBookingIdPattern (s : String) : Bool :=
  decide (6 ≤ s.length) && decide (s.length ≤ 12)
    && s.data.all (fun c => ('A' ≤ c && c ≤ 'Z') || ('0' ≤ c && c ≤ '9'))

/-- `validate_booking_id` from `validation.py`: uppercase, then match the
pattern. -/
def validate_booking_id (booking_id : String) : Bool × Option String :=
  if booking_id.length == 0 then (false, some "Booking ID is required")
  else if !(matchesBookingIdPattern (pyUpper booking_id)) then
    (false, some "Invalid booking ID format")
  else (true, none)

/-! ## Embedding of the store (`backend/database.py`) and the direct
operations of `backend/endpoints.py` -/

/-- A `routes` row. -/
structure Route where
  origin : String
  destination : String
  base_price_per_kg : ℚ
  transit_days : ℕ

/-- A `bookings` row. -/
structure Booking where
  booking_id : String
  customer_name : Option String
  customer_email : Option String
  origin : String
  destination : String
  weight : ℚ
  volume : Option ℚ
  cargo_type : String
  shipping_date : String
  price : ℚ
  status : String
  created_at : ℕ
  updated_at : ℕ

/-- The persistent store: reference routes plus booking records. -/
structure Db where
  routes : List Route
  bookings : List Booking

/-- `validate_route` from `validation.py`: origin must differ from destination
and the pair must exist in the routes table. -/
def validate_route (origin destination : String) (db : Db) : Bool × Option String :=
  if origin == destination then (false, some "Origin and destination cannot be the same")
  else
    match db.routes.find? (fun r => r.origin == origin && r.destination == destination) with
    | none => (false, some ("No route available from " ++ origin ++ " to " ++ destination ++
        ". Please check available routes or contact us for custom routing."))
    | some _ => (true, none)

/-- A raised `HTTPException`. -/
structure HTTPException where
  status_code : ℕ
  detail : String

/-- A raised Python exception: either an `HTTPException` (caught by the
conversational wrappers) or any other exception, such as a pydantic
`ValidationError`, which propagates. -/
inductive PyErr where
  | http : HTTPException → PyErr
  | py : String → PyErr

/-- `QuoteRequest` model. -/
structure QuoteRequest where
  origin : String
  destination : String
  weight : ℚ
  volume : Option ℚ
  cargo_type : String
  shipping_date : String

/-- `QuoteResponse` model. -/
structure QuoteResponse where
  origin : String
  destination : String
  weight : ℚ
  cargo_type : String
  shipping_date : String
  price : ℚ
  breakdown : PriceBreakdown
  transit_days : ℕ

/-- `BookingRequest` model (`confirmed` defaults to `False` in the source). -/
structure BookingRequest where
  origin : String
  destination : String
  weight : ℚ
  volume : Option ℚ
  cargo_type : String
  shipping_date : String
  customer_name : Option String
  customer_email : Option String
  confirmed : Bool

/-- `BookingResponse` model. -/
structure BookingResponse where
  booking_id : String
  status : String
  price : ℚ
  message : String

/-- `CancelRequest` model. -/
structure CancelRequest where
  booking_id : String
  confirmed : Bool

/-- The dictionary returned by a successful `/cancel`. -/
structure CancelResult where
  message : String
  booking_id : String
  status : String

/-- `TrackResponse` model. -/
structure TrackResponse where
  booking_id : String
  status : String
  origin : String
  destination : String
  weight : ℚ
  cargo_type : String
  shipping_date : String
  price : ℚ
  created_at : ℕ

/-- `get_quote` (`POST /quote`): the full validation chain, route lookup and
pricing.  The unreachable `route is None` case after `validate_route`
succeeded is modelled as a non-HTTP exception. -/
def get_quote (today max_date : Date) (request : QuoteRequest) (db : Db) :
    Except PyErr QuoteResponse :=
  match validate_location request.origin with
  | (false, _, error) => .error (.http ⟨400, error.getD ""⟩)
  | (true, originNorm, _) =>
  match validate_location request.destination with
  | (false, _, error) => .error (.http ⟨400, error.getD ""⟩)
  | (true, destinationNorm, _) =>
  let origin := originNorm.getD ""
  let destination := destinationNorm.getD ""
  match validate_weight (some request.weight) with
  | (false, error) => .error (.http ⟨400, error.getD ""⟩)
  | (true, _) =>
  match validate_volume request.volume with
  | (false, error) => .error (.http ⟨400, error.getD ""⟩)
  | (true, _) =>
  match validate_date today max_date request.shipping_date with
  | (false, _, error) => .error (.http ⟨400, error.getD ""⟩)
  | (true, dateNorm, _) =>
  match validate_cargo_type request.cargo_type with
  | (false, _, error) => .error (.http ⟨400, error.getD ""⟩)
  | (true, cargoNorm, _) =>
  match validate_route origin destination db with
  | (false, error) => .error (.http ⟨400, error.getD ""⟩)
  | (true, _) =>
  match db.routes.find? (fun r => r.origin == origin && r.destination == destination) with
  | none => .error (.py "AttributeError: NoneType route")
  | some route =>
    let normalized_date := dateNorm.getD ""
    let cargo_type := cargoNorm.getD ""
    let price := calculate_price route.base_price_per_kg request.weight cargo_type
      normalized_date request.volume
    let breakdown := get_price_breakdown route.base_price_per_kg request.weight cargo_type
      normalized_date request.volume
    .ok ⟨origin, destination, request.weight, cargo_type, normalized_date, price, breakdown,
      route.transit_days⟩

/-- The alphabet of `secrets.token_hex`. -/
def hexDigits : List Char := "0123456789abcdef".data

/-- Characterises an output of `secrets.token_hex(4)`: 8 lowercase hex
characters. -/
def isTokenHex8 (l : List Char) : Bool := l.length == 8 && l.all (fun c => hexDigits.contains c)

/-- The booking-id generator of `create_booking`:
`f"CRG{secrets.token_hex(4).upper()}"`, with the random token passed in
explicitly. -/
def genBookingId (hex : List Char) : String := "CRG" ++ pyUpper ⟨hex⟩

/-- `create_booking` (`POST /book`): confirmation gate, full validation, then
persist with status `confirmed`.  Returns the response (or raised exception)
together with the resulting store. -/
def create_booking (today max_date : Date) (now : ℕ) (freshHex : List Char)
    (request : BookingRequest) (db : Db) : Except PyErr BookingResponse × Db :=
  if request.confirmed = false then
    (.error (.http ⟨400, "Booking requires confirmation. Set confirmed=True to proceed."⟩), db)
  else
    match validate_location request.origin with
    | (false, _, error) => (.error (.http ⟨400, error.getD ""⟩), db)
    | (true, originNorm, _) =>
    match validate_location request.destination with
    | (false, _, error) => (.error (.http ⟨400, error.getD ""⟩), db)
    | (true, destinationNorm, _) =>
    let origin := originNorm.getD ""
    let destination := destinationNorm.getD ""
    match validate_weight (some request.weight) with
    | (false, error) => (.error (.http ⟨400, error.getD ""⟩), db)
    | (true, _) =>
    match validate_volume request.volume with
    | (false, error) => (.error (.http ⟨400, error.getD ""⟩), db)
    | (true, _) =>
    match validate_date today max_date request.shipping_date with
    | (false, _, error) => (.error (.http ⟨400, error.getD ""⟩), db)
    | (true, dateNorm, _) =>
    match validate_cargo_type request.cargo_type with
    | (false, _, error) => (.error (.http ⟨400, error.getD ""⟩), db)
    | (true, cargoNorm, _) =>
    match validate_route origin destination db with
    | (false, error) => (.error (.http ⟨400, error.getD ""⟩), db)
    | (true, _) =>
    match db.routes.find? (fun r => r.origin == origin && r.destination == destination) with
    | none => (.error (.py "AttributeError: NoneType route"), db)
    | some route =>
      let normalized_date := dateNorm.getD ""
      let cargo_type := cargoNorm.getD ""
      let price := calculate_price route.base_price_per_kg request.weight cargo_type
        normalized_date request.volume
      let booking_id := genBookingId freshHex
      let booking : Booking :=
        { booking_id := booking_id
          customer_name := request.customer_name
          customer_email := request.customer_email
          origin := origin
          destination := destination
          weight := request.weight
          volume := request.volume
          cargo_type := cargo_type
          shipping_date := normalized_date
          price := price
          status := "confirmed"
          created_at := now
          updated_at := now }
      (.ok ⟨booking_id, "confirmed", price, "Booking confirmed! Your booking ID is " ++ booking_id⟩,
       { db with bookings := db.bookings ++ [booking] })

/-- The store write of `cancel_booking`: set the status of the first booking
matching the id to `cancelled` and refresh its modification timestamp, leaving
every other record untouched (SQLAlchemy mutates the single row returned by
`.first()`). -/
def cancelFirst (bid : String) (now : ℕ) : List Booking → List Booking
  | [] => []
  | b :: rest =>
    if b.booking_id == bid then { b with status := "cancelled", updated_at := now } :: rest
    else b :: cancelFirst bid now rest

/-- `cancel_booking` (`POST /cancel`): confirmation gate, id syntax check,
lookup by uppercased id, `not found` / `already cancelled` rejections, then
the soft delete. -/
def cancel_booking (now : ℕ) (request : CancelRequest) (db : Db) :
    Except PyErr CancelResult × Db :=
  if request.confirmed = false then
    (.error (.http ⟨400, "Cancellation requires confirmation. Set confirmed=True to proceed."⟩), db)
  else
    match validate_booking_id request.booking_id with
    | (false, error) => (.error (.http ⟨400, error.getD ""⟩), db)
    | (true, _) =>
      match db.bookings.find? (fun b => b.booking_id == pyUpper request.booking_id) with
      | none => (.error (.http ⟨404, "Booking not found"⟩), db)
      | some booking =>
        if booking.status == "cancelled" then
          (.error (.http ⟨400, "Booking is already cancelled"⟩), db)
        else
          (.ok ⟨"Booking " ++ request.booking_id ++ " has been cancelled successfully",
                request.booking_id, "cancelled"⟩,
           { db with bookings := cancelFirst (pyUpper request.booking_id) now db.bookings })

/-- `track_booking` (`GET /track/{booking_id}`): read-only lookup. -/
def track_booking (booking_id : String) (db : Db) : Except PyErr TrackResponse :=
  match validate_booking_id booking_id with
  | (false, error) => .error (.http ⟨400, error.getD ""⟩)
  | (true, _) =>
    match db.bookings.find? (fun b => b.booking_id == pyUpper booking_id) with
    | none => .error (.http ⟨404, "Booking not found"⟩)
    | some b =>
      .ok ⟨b.booking_id, b.status, b.origin, b.destination, b.weight, b.cargo_type,
        b.shipping_date, b.price, b.created_at⟩

/-! ## Embedding of the conversational endpoint (`POST /conversation`) -/

/-- A JSON scalar slot value: the extractor output and the caller-echoed
state carry strings and numbers. -/
inductive SVal where
  | s : String → SVal
  | n : ℚ → SVal

/-- Python truthiness of a slot value (`""` and `0.0` are falsy). -/
def SVal.truthy : SVal → Bool
  | .s v => !(v.length == 0)
  | .n q => decide (q ≠ 0)

/-- The fixed slot fields of the `Slots` model in `llm_agent.py`. -/
inductive SlotKey where
  | origin
  | destination
  | weight
  | volume
  | cargo_type
  | shipping_date
  | booking_id
  | customer_name
  | customer_email
deriving DecidableEq

/-- A slot dictionary: `accumulated_slots`, or an extractor `Slots` object
(absent and `null` fields both modelled as `none`). -/
abbrev SlotMap := SlotKey → Option SVal

/-- The empty dictionary. -/
def emptySlots : SlotMap := fun _ => none

/-- Field names, for the string-keyed accesses driven by the extractor's
`missing_slots` list. -/
def slotKeyOfName (s : String) : Option SlotKey :=
  if s == "origin" then some .origin
  else if s == "destination" then some .destination
  else if s == "weight" then some .weight
  else if s == "volume" then some .volume
  else if s == "cargo_type" then some .cargo_type
  else if s == "shipping_date" then some .shipping_date
  else if s == "booking_id" then some .booking_id
  else if s == "customer_name" then some .customer_name
  else if s == "customer_email" then some .customer_email
  else none

/-- `accumulated.get(slot)` for a string key (an unknown key reads as `None`). -/
def getSlotByName (m : SlotMap) (s : String) : Option SVal :=
  match slotKeyOfName s with
  | some k => m k
  | none => none

/-- Truthiness of `accumulated.get(slot)` / `getattr(slots, s)`. -/
def truthyOpt (o : Option SVal) : Bool :=
  match o with
  | some v => v.truthy
  | none => false

/-- The per-turn merge in `conversation` (`endpoints.py` lines 355-369): every
non-null extracted field overwrites the accumulated one; null or absent
extracted fields leave the accumulated value in place.  After the subsequent
`setattr` loop the `slots` object agrees with this merged dictionary field by
field, so both are modelled by the merge's result. -/
def mergeSlots (accumulated extracted : SlotMap) : SlotMap :=
  fun k =>
    match extracted k with
    | some v => some v
    | none => accumulated k

/-- The structured extractor output consumed by `conversation` (the
`LLMResponse` model of `llm_agent.py`, restricted to the fields the endpoint
reads). -/
structure LLMResponse where
  intent_type : String
  slots : SlotMap
  missing_slots : List String
  clarification_question : Option String

/-- The draft-booking dictionary stored inside a book confirmation marker and
splatted into `BookingRequest(**data, confirmed=True)` on resolution. -/
structure BookingData where
  origin : Option SVal
  destination : Option SVal
  weight : Option SVal
  volume : Option SVal
  cargo_type : Option SVal
  shipping_date : Option SVal
  customer_name : Option SVal
  customer_email : Option SVal

/-- The `{}` default of `pending_confirmation.get("data", {})`. -/
def emptyBookingData : BookingData := ⟨none, none, none, none, none, none, none, none⟩

/-- The `pending_confirmation` / `confirmation_data` dictionary: the endpoint
reads `get("type")`, `get("data", {})` and `get("booking_id")`. -/
structure PendingConfirmation where
  type : Option String
  data : BookingData
  booking_id : Option SVal

/-- Modelled stdlib: pydantic v1 coercion of a JSON scalar to `str`. -/
def coerceStr : SVal → String
  | .s v => v
  | .n q => toString q

/-- Digit-string parsing helper for the float model. -/
def parseDigits (l : List Char) : Option ℕ :=
  if l.length != 0 && l.all Char.isDigit then some (digitsVal l) else none

/-- Modelled stdlib: Python `float(s)` on plain decimal forms, as pydantic v1
coerces a string to `float`. -/
def parsePyFloat (s : String) : Option ℚ :=
  let t := (pyStrip s).data
  let p :=
    match t with
    | '-' :: r => ((-1 : ℚ), r)
    | '+' :: r => ((1 : ℚ), r)
    | r => ((1 : ℚ), r)
  match splitOnCharAux '.' p.2 [] with
  | [intPart] => (parseDigits intPart).map (fun k => p.1 * (k : ℚ))
  | [intPart, fracPart] =>
    if intPart.length == 0 && fracPart.length == 0 then none
    else
      match (if intPart.length == 0 then some 0 else parseDigits intPart),
          (if fracPart.length == 0 then some 0 else parseDigits fracPart) with
      | some i, some f =>
        some (p.1 * ((i : ℚ) + (f : ℚ) / ((10 : ℚ) ^ fracPart.length)))
      | _, _ => none
  | _ => none

/-- Modelled stdlib: pydantic v1 coercion of a JSON scalar to `float`. -/
def coerceFloat : SVal → Option ℚ
  | .n q => some q
  | .s v => parsePyFloat v

/-- `QuoteRequest(...)` built from slot values (quote branch, and the
`**{k: v for ...}` splat of the book branch): a missing required field or an
uncoercible value raises a pydantic `ValidationError`, which the endpoint
does not catch. -/
def mkQuoteRequest (m : SlotMap) : Except PyErr QuoteRequest :=
  match m .origin, m .destination, m .weight, m .cargo_type, m .shipping_date with
  | some o, some d, some w, some c, some sd =>
    (match coerceFloat w with
    | none => .error (.py "ValidationError: weight")
    | some wq =>
      match m .volume with
      | none => .ok ⟨coerceStr o, coerceStr d, wq, none, coerceStr c, coerceStr sd⟩
      | some v =>
        match coerceFloat v with
        | none => .error (.py "ValidationError: volume")
        | some vq => .ok ⟨coerceStr o, coerceStr d, wq, some vq, coerceStr c, coerceStr sd⟩)
  | _, _, _, _, _ => .error (.py "ValidationError: QuoteRequest missing required field")

/-- `BookingRequest(**booking_data, confirmed=True)` built from a stored
draft dictionary, with the same pydantic failure mode. -/
def mkBookingRequest (d : BookingData) (confirmed : Bool) : Except PyErr BookingRequest :=
  match d.origin, d.destination, d.weight, d.cargo_type, d.shipping_date with
  | some o, some dst, some w, some c, some sd =>
    (match coerceFloat w with
    | none => .error (.py "ValidationError: weight")
    | some wq =>
      match d.volume with
      | none =>
        .ok ⟨coerceStr o, coerceStr dst, wq, none, coerceStr c, coerceStr sd,
          d.customer_name.map coerceStr, d.customer_email.map coerceStr, confirmed⟩
      | some v =>
        match coerceFloat v with
        | none => .error (.py "ValidationError: volume")
        | some vq =>
          .ok ⟨coerceStr o, coerceStr dst, wq, some vq, coerceStr c, coerceStr sd,
            d.customer_name.map coerceStr, d.customer_email.map coerceStr, confirmed⟩)
  | _, _, _, _, _ => .error (.py "ValidationError: BookingRequest missing required field")

/-- The `data` payload attached to some conversational responses (opaque to
every claim; carried for shape-fidelity). -/
inductive DataPayload where
  | accSlots : SlotMap → DataPayload
  | bookingInfo : String → ℚ → DataPayload
  | quoteInfo : ℚ → QuoteResponse → DataPayload
  | trackInfo : TrackResponse → DataPayload

/-- `ConversationRequest` model (the history only feeds the extractor, which
is an input here, so it is not carried). -/
structure ConversationRequest where
  message : String
  pending_confirmation : Option PendingConfirmation
  accumulated_slots : Option SlotMap

/-- `ConversationResponse` model. -/
structure ConversationResponse where
  response : String
  intent : String
  needs_confirmation : Bool
  confirmation_data : Option PendingConfirmation
  data : Option DataPayload
  accumulated_slots : Option SlotMap

/-- Python `str()` of an optional slot value, for f-string interpolation. -/
def pyStrOf : Option SVal → String
  | none => "None"
  | some (.s v) => v
  | some (.n q) => toString q

/-- Python `f"{x:.2f}"` on the exact rational value (display only). -/
def pyFormat2f (q : ℚ) : String :=
  let n : ℤ := ⌊q * 100 + 1/2⌋
  let a := n.natAbs
  (if n < 0 then "-" else "") ++ toString (a / 100) ++ "." ++
    (if a % 100 < 10 then "0" else "") ++ toString (a % 100)

/-- The affirmation token set of the pending-confirmation resolution. -/
def AFFIRM_WORDS : List String := ["yes", "confirm", "sure", "ok", "proceed"]

/-- The negation token set of the pending-confirmation resolution. -/
def NEG_WORDS : List String := ["no", "cancel", "stop", "nevermind"]

/-- `any(word in user_msg_lower for word in ["yes", ...])`. -/
def isAffirmative (message : String) : Bool :=
  AFFIRM_WORDS.any (fun w => strContains (pyLower message) w)

/-- `any(word in user_msg_lower for word in ["no", ...])`. -/
def isNegative (message : String) : Bool :=
  NEG_WORDS.any (fun w => strContains (pyLower message) w)

/-- Affirmative resolution of a pending `book` confirmation: rebuild the
`BookingRequest` with `confirmed=True` and call `create_booking`; a caught
`HTTPException` is rendered conversationally, a pydantic error propagates. -/
def resolveBookConfirmation (today max_date : Date) (now : ℕ) (freshHex : List Char)
    (pc : PendingConfirmation) (db : Db) : Except PyErr ConversationResponse × Db :=
  match mkBookingRequest pc.data true with
  | .error e => (.error e, db)
  | .ok breq =>
    match create_booking today max_date now freshHex breq db with
    | (.ok bresp, dbAfter) =>
      (.ok ⟨bresp.message, "book", false, none,
        some (.bookingInfo bresp.booking_id bresp.price), none⟩, dbAfter)
    | (.error (.http e), dbAfter) =>
      (.ok ⟨"Error creating booking: " ++ e.detail, "book", false, none, none, none⟩, dbAfter)
    | (.error (.py m), dbAfter) => (.error (.py m), dbAfter)

/-- Affirmative resolution of a pending `cancel` confirmation: build the
`CancelRequest` with `confirmed=True` and call `cancel_booking`. -/
def resolveCancelConfirmation (now : ℕ) (pc : PendingConfirmation) (db : Db) :
    Except PyErr ConversationResponse × Db :=
  match pc.booking_id with
  | none => (.error (.py "ValidationError: CancelRequest booking_id"), db)
  | some bidVal =>
    match cancel_booking now ⟨coerceStr bidVal, true⟩ db with
    | (.ok res, dbAfter) =>
      (.ok ⟨res.message, "cancel", false, none, none, none⟩, dbAfter)
    | (.error (.http e), dbAfter) =>
      (.ok ⟨"Error cancelling booking: " ++ e.detail, "cancel", false, none, none, none⟩, dbAfter)
    | (.error (.py m), dbAfter) => (.error (.py m), dbAfter)

/-- The quote attempt reached when the quote branch decides nothing is
missing: construct the `QuoteRequest` from the merged slots (a pydantic
failure propagates), call `get_quote`, render success or the caught
`HTTPException` conversationally. -/
def attemptQuote (today max_date : Date) (accumulated : SlotMap) (db : Db) :
    Except PyErr ConversationResponse × Db :=
  match mkQuoteRequest accumulated with
  | .error e => (.error e, db)
  | .ok qreq =>
    match get_quote today max_date qreq db with
    | .ok q =>
      (.ok ⟨"Your quote from " ++ q.origin ++ " to " ++ q.destination ++ " for " ++
          toString q.weight ++ " tonnes of " ++ q.cargo_type ++ " cargo on " ++
          q.shipping_date ++ " is $" ++ pyFormat2f q.price ++ " (estimated " ++
          toString q.transit_days ++
          " days transit). Would you like to book this shipment?",
        "quote", false, none, some (.quoteInfo q.price q), some accumulated⟩, db)
    | .error (.http e) =>
      (.ok ⟨"I couldn't generate a quote: " ++ e.detail, "quote", false, none, none,
        some accumulated⟩, db)
    | .error (.py m) => (.error (.py m), db)

/-- The `quote` intent branch: the missing-slot recheck iterates the
extractor's own `missing_slots` list, dropping entries already truthy in the
accumulated dictionary; if anything survives, ask for it, else attempt the
quote. -/
def quoteTurn (today max_date : Date) (llm : LLMResponse) (accumulated : SlotMap) (db : Db) :
    Except PyErr ConversationResponse × Db :=
  if llm.missing_slots.isEmpty then attemptQuote today max_date accumulated db
  else
    let actually_missing :=
      llm.missing_slots.filter (fun slot => !(truthyOpt (getSlotByName accumulated slot)))
    if actually_missing.isEmpty then attemptQuote today max_date accumulated db
    else
      (.ok ⟨llm.clarification_question.getD
          ("I need some more information. Please provide: " ++ joinComma actually_missing),
        "quote", false, none, some (.accSlots accumulated), some accumulated⟩, db)

/-- The required-field list of the `book` branch. -/
def REQUIRED_SLOTS : List String :=
  ["origin", "destination", "weight", "cargo_type", "shipping_date"]

/-- The `book` intent branch: recompute missing required fields from the
merged slots, else price the draft and request confirmation with a `book`
pending-confirmation marker. -/
def bookTurn (today max_date : Date) (llm : LLMResponse) (accumulated : SlotMap) (db : Db) :
    Except PyErr ConversationResponse × Db :=
  let missing := REQUIRED_SLOTS.filter (fun s => !(truthyOpt (getSlotByName accumulated s)))
  if !missing.isEmpty then
    (.ok ⟨llm.clarification_question.getD ("To create a booking, I need: " ++ joinComma missing),
      "book", false, none, none, some accumulated⟩, db)
  else
    let booking_data : BookingData :=
      ⟨accumulated .origin, accumulated .destination, accumulated .weight, accumulated .volume,
        accumulated .cargo_type, accumulated .shipping_date, accumulated .customer_name,
        accumulated .customer_email⟩
    match mkQuoteRequest accumulated with
    | .error e => (.error e, db)
    | .ok qreq =>
      match get_quote today max_date qreq db with
      | .ok q =>
        (.ok ⟨"I'll create a booking from " ++ pyStrOf (accumulated .origin) ++ " to " ++
            pyStrOf (accumulated .destination) ++ " for " ++ pyStrOf (accumulated .weight) ++
            " tonnes of " ++ pyStrOf (accumulated .cargo_type) ++ " cargo on " ++
            pyStrOf (accumulated .shipping_date) ++ ". The total price is $" ++
            pyFormat2f q.price ++ ". Please confirm to proceed.",
          "book", true, some ⟨some "book", booking_data, none⟩, none, some accumulated⟩, db)
      | .error (.http e) =>
        (.ok ⟨"Error preparing booking: " ++ e.detail, "book", false, none, none,
          some accumulated⟩, db)
      | .error (.py m) => (.error (.py m), db)

/-- The `cancel` intent branch: prompt for the booking id, else request
confirmation with a `cancel` pending-confirmation marker (no store call). -/
def cancelTurn (_llm : LLMResponse) (accumulated : SlotMap) (db : Db) :
    Except PyErr ConversationResponse × Db :=
  match accumulated .booking_id with
  | none =>
    (.ok ⟨"What's your booking ID?", "cancel", false, none, none, some accumulated⟩, db)
  | some bid =>
    if bid.truthy = false then
      (.ok ⟨"What's your booking ID?", "cancel", false, none, none, some accumulated⟩, db)
    else
      (.ok ⟨"Are you sure you want to cancel booking " ++ pyStrOf (some bid) ++
          "? Please confirm.",
        "cancel", true, some ⟨some "cancel", emptyBookingData, some bid⟩, none,
        some accumulated⟩, db)

/-- The `track` intent branch: prompt for the booking id, else a read-only
lookup rendered conversationally (`.upper()` on a numeric value would raise). -/
def trackTurn (_llm : LLMResponse) (accumulated : SlotMap) (db : Db) :
    Except PyErr ConversationResponse × Db :=
  match accumulated .booking_id with
  | none =>
    (.ok ⟨"What's your booking ID?", "track", false, none, none, some accumulated⟩, db)
  | some bid =>
    if bid.truthy = false then
      (.ok ⟨"What's your booking ID?", "track", false, none, none, some accumulated⟩, db)
    else
      match bid with
      | .n _ => (.error (.py "AttributeError: float has no upper"), db)
      | .s bidStr =>
        match track_booking bidStr db with
        | .ok t =>
          (.ok ⟨"Booking " ++ t.booking_id ++ ": Status is '" ++ t.status ++ "'. Route: " ++
              t.origin ++ " to " ++ t.destination ++ ", " ++ toString t.weight ++
              " tonnes of " ++ t.cargo_type ++ ", shipping on " ++ t.shipping_date ++
              ". Price: $" ++ pyFormat2f t.price,
            "track", false, none, some (.trackInfo t), some accumulated⟩, db)
        | .error (.http e) =>
          (.ok ⟨"Error tracking booking: " ++ e.detail, "track", false, none, none,
            some accumulated⟩, db)
        | .error (.py m) => (.error (.py m), db)

/-- The greeting text. -/
def greetingText : String :=
  "Hello! I'm your air cargo booking assistant. I can help you get quotes, create bookings, track shipments, or cancel bookings. How can I help you today?"

/-- The clarification fallback text. -/
def fallbackText : String :=
  "I'm not sure I understand. I can help you with quotes, bookings, tracking, or cancellations. What would you like to do?"

/-- The intent dispatch of `conversation` (reached when no pending
confirmation was resolved). -/
def dispatchIntent (today max_date : Date) (llm : LLMResponse) (accumulated : SlotMap)
    (db : Db) : Except PyErr ConversationResponse × Db :=
  if llm.intent_type == "greeting" then
    (.ok ⟨greetingText, "greeting", false, none, none, some accumulated⟩, db)
  else if llm.intent_type == "quote" then quoteTurn today max_date llm accumulated db
  else if llm.intent_type == "book" then bookTurn today max_date llm accumulated db
  else if llm.intent_type == "cancel" then cancelTurn llm accumulated db
  else if llm.intent_type == "track" then trackTurn llm accumulated db
  else
    (.ok ⟨llm.clarification_question.getD fallbackText, "clarification", false, none, none,
      some accumulated⟩, db)

/-- `conversation` (`POST /conversation`): merge the extracted slots into the
accumulated ones, resolve a pending confirmation when the message matches the
affirmation set (checked first) or the negation set, else dispatch on the
extracted intent. -/
def conversation (today max_date : Date) (now : ℕ) (freshHex : List Char)
    (llm : LLMResponse) (request : ConversationRequest) (db : Db) :
    Except PyErr ConversationResponse × Db :=
  let accumulated := mergeSlots (request.accumulated_slots.getD emptySlots) llm.slots
  match request.pending_confirmation with
  | some pc =>
    if isAffirmative request.message then
      if pc.type == some "book" then
        resolveBookConfirmation today max_date now freshHex pc db
      else if pc.type == some "cancel" then
        resolveCancelConfirmation now pc db
      else dispatchIntent today max_date llm accumulated db
    else if isNegative request.message then
      (.ok ⟨"Okay, I've cancelled that action. How else can I help you?", "clarification",
        false, none, none, none⟩, db)
    else dispatchIntent today max_date llm accumulated db
  | none => dispatchIntent today max_date llm accumulated db

end CargoBot

namespace CargoBot

/-! ## Evaluation lemmas for the pricing engine -/

lemma cargoMultiplierFor_general : cargoMultiplierFor "general" = 1 := by
  have h : pyLower "general" = "general" := by decide
  simp [cargoMultiplierFor, CARGO_TYPE_MULTIPLIERS, h, List.find?]
  norm_num

lemma cargoMultiplierFor_perishable : cargoMultiplierFor "perishable" = 1.5 := by
  have h : pyLower "perishable" = "perishable" := by decide
  simp [cargoMultiplierFor, CARGO_TYPE_MULTIPLIERS, h, List.find?]

lemma cargoMultiplierFor_hazardous : cargoMultiplierFor "hazardous" = 2 := by
  have h : pyLower "hazardous" = "hazardous" := by decide
  simp [cargoMultiplierFor, CARGO_TYPE_MULTIPLIERS, h, List.find?]
  norm_num

lemma cargoMultiplierFor_vehicles : cargoMultiplierFor "vehicles" = 1.8 := by
  have h : pyLower "vehicles" = "vehicles" := by decide
  simp [cargoMultiplierFor, CARGO_TYPE_MULTIPLIERS, h, List.find?]

lemma cargoMultiplierFor_livestock : cargoMultiplierFor "livestock" = 2.5 := by
  have h : pyLower "livestock" = "livestock" := by decide
  simp [cargoMultiplierFor, CARGO_TYPE_MULTIPLIERS, h, List.find?]

lemma cargoMultiplierFor_default : cargoMultiplierFor "steel" = 1 := by
  have h : pyLower "steel" = "steel" := by decide
  simp [cargoMultiplierFor, CARGO_TYPE_MULTIPLIERS, h, List.find?]
  norm_num

lemma peakMultiplierFor_feb : peakMultiplierFor "2026-02-15" = 1 := by
  have h : parseYMD "2026-02-15" = some (2026, 2, 15) := by decide
  rw [peakMultiplierFor, h]
  norm_num [PEAK_SEASONS]

lemma peakMultiplierFor_jan : peakMultiplierFor "2026-01-15" = 1 := by
  have h : parseYMD "2026-01-15" = some (2026, 1, 15) := by decide
  rw [peakMultiplierFor, h]
  norm_num [PEAK_SEASONS]

lemma peakMultiplierFor_dec : peakMultiplierFor "2026-12-15" = 1.15 := by
  have h : parseYMD "2026-12-15" = some (2026, 12, 15) := by decide
  rw [peakMultiplierFor, h]
  norm_num [PEAK_SEASONS]

/-- C6: the pricing function multiplies the base rate by the weight in kg,
applies the cargo-type multiplier (with the documented table and default),
adds the volumetric surcharge only under the low-density double condition,
applies the peak multiplier to the subtotal and rounds to two decimals; the
three pinned examples evaluate as the spec states. -/
theorem c6_pricing_formula :
    (∀ b w : ℚ, ∀ c d : String, ∀ v : Option ℚ,
      calculate_price b w c d v =
        pyRound2 ((b * (w * 1000) * cargoMultiplierFor c + volumeSurchargeFor b w v) *
          peakMultiplierFor d))
    ∧ cargoMultiplierFor "general" = 1 ∧ cargoMultiplierFor "perishable" = 1.5
    ∧ cargoMultiplierFor "hazardous" = 2 ∧ cargoMultiplierFor "vehicles" = 1.8
    ∧ cargoMultiplierFor "livestock" = 2.5 ∧ cargoMultiplierFor "steel" = 1
    ∧ calculate_price 2.5 5 "general" "2026-02-15" none = 12500
    ∧ calculate_price 2.5 5 "perishable" "2026-12-15" none = 21562.5
    ∧ volumeSurchargeFor 2.5 10 (some 80) = 4200
    ∧ volumeSurchargeFor 2.5 10 (some 50) = 0
    ∧ calculate_price 2.5 10 "general" "2026-02-15" (some 80) = 29200 := by
  refine ⟨fun b w c d v => rfl, cargoMultiplierFor_general, cargoMultiplierFor_perishable,
    cargoMultiplierFor_hazardous, cargoMultiplierFor_vehicles, cargoMultiplierFor_livestock,
    cargoMultiplierFor_default, ?_, ?_, ?_, ?_, ?_⟩
  · rw [calculate_price, cargoMultiplierFor_general, peakMultiplierFor_feb]
    norm_num [volumeSurchargeFor, pyRound2]
  · rw [calculate_price, cargoMultiplierFor_perishable, peakMultiplierFor_dec]
    norm_num [volumeSurchargeFor, pyRound2]
  · norm_num [volumeSurchargeFor]
  · norm_num [volumeSurchargeFor]
  · rw [calculate_price, cargoMultiplierFor_general, peakMultiplierFor_feb]
    norm_num [volumeSurchargeFor, pyRound2]

/-- C7: for every input tuple, the `total` field of the price breakdown
equals the result of `calculate_price` on the same arguments. -/
theorem c7_breakdown_total_agrees (base_price_per_kg weight : ℚ)
    (cargo_type shipping_date : String) (volume : Option ℚ) :
    (get_price_breakdown base_price_per_kg weight cargo_type shipping_date volume).total
      = calculate_price base_price_per_kg weight cargo_type shipping_date volume := rfl

/-- C9: a shipping date that does not parse as YYYY-MM-DD never makes pricing
fail — the peak multiplier falls back to 1 and the price agrees with the same
computation on a non-peak parseable date; for a parseable date the 1.15
multiplier applies exactly when the month lies in [11,12] or [6,8]. -/
theorem c9_peak_season_date_handling :
    (∀ d : String, parseYMD d = none →
      peakMultiplierFor d = 1 ∧
        ∀ b w : ℚ, ∀ c : String, ∀ v : Option ℚ,
          calculate_price b w c d v = calculate_price b w c "2026-01-15" v)
    ∧ (∀ d : String, ∀ y m dd : ℕ, parseYMD d = some (y, m, dd) →
        (peakMultiplierFor d = 1.15 ↔ ((11 ≤ m ∧ m ≤ 12) ∨ (6 ≤ m ∧ m ≤ 8)))
        ∧ (peakMultiplierFor d = 1.15 ∨ peakMultiplierFor d = 1)) := by
  constructor
  · intro d hd
    have hp : peakMultiplierFor d = 1 := by rw [peakMultiplierFor, hd]; norm_num
    refine ⟨hp, fun b w c v => ?_⟩
    rw [calculate_price, calculate_price, hp, peakMultiplierFor_jan]
  · intro d y m dd hd
    by_cases hc : ((11 ≤ m ∧ m ≤ 12) ∨ (6 ≤ m ∧ m ≤ 8))
    · have hp : peakMultiplierFor d = 1.15 := by
        simp only [peakMultiplierFor, hd, PEAK_SEASONS, List.any_cons, List.any_nil,
          Bool.or_false, Bool.or_eq_true, decide_eq_true_eq]
        rw [if_pos hc]
      exact ⟨⟨fun _ => hc, fun _ => hp⟩, Or.inl hp⟩
    · have hp : peakMultiplierFor d = 1 := by
        simp only [peakMultiplierFor, hd, PEAK_SEASONS, List.any_cons, List.any_nil,
          Bool.or_false, Bool.or_eq_true, decide_eq_true_eq]
        rw [if_neg hc]
        norm_num
      refine ⟨⟨fun h115 => ?_, fun h => absurd h hc⟩, Or.inr hp⟩
      rw [hp] at h115
      exact absurd h115 (by norm_num)

/-- C9 witness: the fallback and the peak rule at concrete dates. -/
theorem c9_peak_season_date_handling_witness :
    peakMultiplierFor "2026-13-40" = 1 ∧
      (peakMultiplierFor "2026-12-15" = 1.15 ↔ ((11 ≤ 12 ∧ 12 ≤ 12) ∨ (6 ≤ 12 ∧ 12 ≤ 8))) :=
  ⟨(c9_peak_season_date_handling.1 "2026-13-40" (by decide)).1,
   (c9_peak_season_date_handling.2 "2026-12-15" 2026 12 15 (by decide)).1⟩

/-! ## The generated booking id and the id validator -/

lemma hexChar_pattern : ∀ c ∈ hexDigits,
    ((('A' ≤ c.toUpper.toUpper && c.toUpper.toUpper ≤ 'Z')
      || ('0' ≤ c.toUpper.toUpper && c.toUpper.toUpper ≤ '9'))) = true := by decide

/-- C10: every id the create-booking operation can generate — `CRG` followed
by the uppercased output of `secrets.token_hex(4)` — passes
`validate_booking_id`, so a booking just created can be tracked or cancelled
by the returned id. -/
theorem c10_generated_id_valid (hex : List Char) (h : isTokenHex8 hex = true) :
    validate_booking_id (genBookingId hex) = (true, none) ∧ (genBookingId hex).length = 11 := by
  have hparts : hex.length = 8 ∧ ∀ c ∈ hex, c ∈ hexDigits := by
    simpa [isTokenHex8, List.all_eq_true, List.elem_iff] using h
  obtain ⟨hlen, hall⟩ := hparts
  have hCup : Char.toUpper 'C' = 'C' := by decide
  have hRup : Char.toUpper 'R' = 'R' := by decide
  have hGup : Char.toUpper 'G' = 'G' := by decide
  have hdata : (genBookingId hex).data = 'C' :: 'R' :: 'G' :: hex.map Char.toUpper := by
    simp [genBookingId, String.data_append, pyUpper]
  have hlength : (genBookingId hex).length = 11 := by
    show (genBookingId hex).data.length = 11
    rw [hdata]
    simp [hlen]
  have hupper_data : (pyUpper (genBookingId hex)).data
      = 'C' :: 'R' :: 'G' :: (hex.map Char.toUpper).map Char.toUpper := by
    show (genBookingId hex).data.map Char.toUpper = _
    rw [hdata]
    simp only [List.map_cons, hCup, hRup, hGup]
  have hplen : (pyUpper (genBookingId hex)).length = 11 := by
    show (pyUpper (genBookingId hex)).data.length = 11
    rw [hupper_data]
    simp [hlen]
  have hpall : ((pyUpper (genBookingId hex)).data.all
      (fun c => ('A' ≤ c && c ≤ 'Z') || ('0' ≤ c && c ≤ '9'))) = true := by
    rw [hupper_data]
    simp only [List.all_cons, List.all_map, Bool.and_eq_true, Function.comp]
    refine ⟨by decide, by decide, by decide, ?_⟩
    rw [List.all_eq_true]
    intro c hc
    exact hexChar_pattern c (hall c hc)
  have hpat : matchesBookingIdPattern (pyUpper (genBookingId hex)) = true := by
    simp [matchesBookingIdPattern, hplen, hpall]
  refine ⟨?_, hlength⟩
  simp [validate_booking_id, hlength, hpat]

/-- C10 witness: a concrete token-hex suffix yields a valid 11-character id. -/
theorem c10_generated_id_valid_witness :
    isTokenHex8 "1a2b3c4d".data = true ∧
      validate_booking_id (genBookingId "1a2b3c4d".data) = (true, none) ∧
      (genBookingId "1a2b3c4d".data).length = 11 :=
  ⟨by decide, c10_generated_id_valid "1a2b3c4d".data (by decide)⟩

/-! ## Cancellation -/

lemma cancelFirst_spec (bid : String) (now : ℕ) :
    ∀ (l : List Booking) (booking : Booking),
      l.find? (fun b => b.booking_id == bid) = some booking →
      ∃ l₁ l₂, l = l₁ ++ booking :: l₂
        ∧ (∀ b ∈ l₁, (b.booking_id == bid) = false)
        ∧ cancelFirst bid now l =
            l₁ ++ { booking with status := "cancelled", updated_at := now } :: l₂ := by
  intro l
  induction l with
  | nil => intro booking h; simp [List.find?] at h
  | cons a rest ih =>
    intro booking h
    cases hpa : a.booking_id == bid with
    | true =>
      simp only [List.find?_cons, hpa] at h
      injection h with h
      subst h
      exact ⟨[], rest, by simp, by simp, by simp [cancelFirst, hpa]⟩
    | false =>
      simp only [List.find?_cons, hpa] at h
      obtain ⟨l₁, l₂, heq, hnone, hres⟩ := ih booking h
      refine ⟨a :: l₁, l₂, by simp [heq], ?_, ?_⟩
      · intro b hb
        rcases List.mem_cons.mp hb with rfl | hb
        · exact hpa
        · exact hnone b hb
      · simp [cancelFirst, hpa, hres]

/-- C5: a confirmed cancel of an already-cancelled booking yields the
user-visible "already cancelled" rejection with the store untouched; an
unknown id yields "not found" with the store untouched; a successful cancel
rewrites exactly the found booking from a non-cancelled status to
`cancelled`, stamping the modification time, and leaves every other record
unchanged. -/
theorem c5_cancel_rejections_and_soft_delete (now : ℕ) (request : CancelRequest) (db : Db)
    (hc : request.confirmed = true)
    (hv : (validate_booking_id request.booking_id).1 = true) :
    (∀ booking, db.bookings.find? (fun b => b.booking_id == pyUpper request.booking_id)
          = some booking →
        booking.status = "cancelled" →
        cancel_booking now request db =
          (.error (.http ⟨400, "Booking is already cancelled"⟩), db))
    ∧ (db.bookings.find? (fun b => b.booking_id == pyUpper request.booking_id) = none →
        cancel_booking now request db = (.error (.http ⟨404, "Booking not found"⟩), db))
    ∧ (∀ booking, db.bookings.find? (fun b => b.booking_id == pyUpper request.booking_id)
          = some booking →
        booking.status ≠ "cancelled" →
        ∃ l₁ l₂, db.bookings = l₁ ++ booking :: l₂
          ∧ cancel_booking now request db =
              (.ok ⟨"Booking " ++ request.booking_id ++ " has been cancelled successfully",
                request.booking_id, "cancelled"⟩,
               { db with bookings :=
                  l₁ ++ { booking with status := "cancelled", updated_at := now } :: l₂ })) := by
  have hbase : cancel_booking now request db =
      (match db.bookings.find? (fun b => b.booking_id == pyUpper request.booking_id) with
      | none => (.error (.http ⟨404, "Booking not found"⟩), db)
      | some booking =>
        if booking.status == "cancelled" then
          (.error (.http ⟨400, "Booking is already cancelled"⟩), db)
        else
          (.ok ⟨"Booking " ++ request.booking_id ++ " has been cancelled successfully",
                request.booking_id, "cancelled"⟩,
           { db with bookings := cancelFirst (pyUpper request.booking_id) now db.bookings })) := by
    unfold cancel_booking
    rw [if_neg (by simp [hc])]
    rcases hvb : validate_booking_id request.booking_id with ⟨valid, err⟩
    rw [hvb] at hv
    cases valid
    · simp at hv
    · rfl
  refine ⟨?_, ?_, ?_⟩
  · intro booking hfind hstatus
    rw [hbase]
    simp only [hfind]
    simp [hstatus]
  · intro hfind
    rw [hbase]
    simp only [hfind]
  · intro booking hfind hstatus
    obtain ⟨l₁, l₂, heq, -, hres⟩ :=
      cancelFirst_spec (pyUpper request.booking_id) now db.bookings booking hfind
    refine ⟨l₁, l₂, heq, ?_⟩
    rw [hbase]
    simp only [hfind]
    rw [if_neg (by simpa [beq_iff_eq] using hstatus), hres]

/-- A store holding one already-cancelled booking, for the C5 witness. -/
def c5booking : Booking :=
  ⟨"CRGAAAA1111", none, none, "JFK", "LHR", 5, none, "general", "2026-02-15", 100,
    "cancelled", 0, 0⟩

/-- The C5 witness store. -/
def c5db : Db := ⟨[], [c5booking]⟩

/-- C5 witness: the rejections at a concrete store. -/
theorem c5_cancel_rejections_and_soft_delete_witness :
    cancel_booking 7 ⟨"CRGAAAA1111", true⟩ c5db
      = (.error (.http ⟨400, "Booking is already cancelled"⟩), c5db)
    ∧ cancel_booking 7 ⟨"CRGBBBB2222", true⟩ c5db
      = (.error (.http ⟨404, "Booking not found"⟩), c5db) :=
  ⟨(c5_cancel_rejections_and_soft_delete 7 ⟨"CRGAAAA1111", true⟩ c5db rfl (by decide)).1
      c5booking rfl rfl,
   (c5_cancel_rejections_and_soft_delete 7 ⟨"CRGBBBB2222", true⟩ c5db rfl (by decide)).2.1
      rfl⟩

/-! ## Store preservation of the conversational branches -/

lemma attemptQuote_db (today max_date : Date) (accumulated : SlotMap) (db : Db) :
    (attemptQuote today max_date accumulated db).2 = db := by
  unfold attemptQuote
  split
  · rfl
  · split <;> rfl

lemma quoteTurn_db (today max_date : Date) (llm : LLMResponse) (accumulated : SlotMap)
    (db : Db) : (quoteTurn today max_date llm accumulated db).2 = db := by
  unfold quoteTurn
  split
  · exact attemptQuote_db _ _ _ _
  · dsimp only
    split
    · exact attemptQuote_db _ _ _ _
    · rfl

lemma bookTurn_db (today max_date : Date) (llm : LLMResponse) (accumulated : SlotMap)
    (db : Db) : (bookTurn today max_date llm accumulated db).2 = db := by
  unfold bookTurn
  dsimp only
  split
  · rfl
  · split
    · rfl
    · split <;> rfl

lemma cancelTurn_db (llm : LLMResponse) (accumulated : SlotMap) (db : Db) :
    (cancelTurn llm accumulated db).2 = db := by
  unfold cancelTurn
  split
  · rfl
  · split <;> rfl

lemma trackTurn_db (llm : LLMResponse) (accumulated : SlotMap) (db : Db) :
    (trackTurn llm accumulated db).2 = db := by
  unfold trackTurn
  split
  · rfl
  · split
    · rfl
    · split
      · rfl
      · split <;> rfl

lemma dispatchIntent_db (today max_date : Date) (llm : LLMResponse) (accumulated : SlotMap)
    (db : Db) : (dispatchIntent today max_date llm accumulated db).2 = db := by
  unfold dispatchIntent
  split
  · rfl
  · split
    · exact quoteTurn_db _ _ _ _ _
    · split
      · exact bookTurn_db _ _ _ _ _
      · split
        · exact cancelTurn_db _ _ _
        · split
          · exact trackTurn_db _ _ _
          · rfl

/-- C1: no store mutation without explicit confirmation — the direct book and
cancel operations reject before any write when `confirmed=False`, and a
conversational turn that resolves no affirmative confirmation (no pending
marker, or a message not matching the affirmation set) leaves the store
unchanged: the book/cancel dispatch branches only emit a
pending-confirmation marker. -/
theorem c1_no_mutation_without_confirmation
    (today max_date : Date) (now : ℕ) (freshHex : List Char) (db : Db) :
    (∀ request : BookingRequest, request.confirmed = false →
      create_booking today max_date now freshHex request db =
        (.error (.http ⟨400, "Booking requires confirmation. Set confirmed=True to proceed."⟩),
         db))
    ∧ (∀ request : CancelRequest, request.confirmed = false →
      cancel_booking now request db =
        (.error
          (.http ⟨400, "Cancellation requires confirmation. Set confirmed=True to proceed."⟩),
         db))
    ∧ (∀ (llm : LLMResponse) (request : ConversationRequest),
        request.pending_confirmation = none ∨ isAffirmative request.message = false →
        (conversation today max_date now freshHex llm request db).2 = db) := by
  refine ⟨?_, ?_, ?_⟩
  · intro request h
    unfold create_booking
    rw [if_pos h]
  · intro request h
    unfold cancel_booking
    rw [if_pos h]
  · intro llm request h
    unfold conversation
    cases hpc : request.pending_confirmation with
    | none =>
      simp only [hpc]
      exact dispatchIntent_db _ _ _ _ _
    | some pc =>
      have haff : isAffirmative request.message = false := by
        rcases h with h | h
        · rw [hpc] at h; cases h
        · exact h
      simp only [hpc, haff, Bool.false_eq_true, if_false]
      split
      · rfl
      · exact dispatchIntent_db _ _ _ _ _

/-! ## Response shape of the conversational branches -/

lemma attemptQuote_shape (today max_date : Date) (accumulated : SlotMap) (db : Db)
    (resp : ConversationResponse)
    (h : (attemptQuote today max_date accumulated db).1 = .ok resp) :
    resp.accumulated_slots = some accumulated ∧ resp.needs_confirmation = false
      ∧ resp.confirmation_data = none := by
  unfold attemptQuote at h
  split at h
  · simp at h
  · split at h
    · injection h with h
      subst h
      exact ⟨rfl, rfl, rfl⟩
    · injection h with h
      subst h
      exact ⟨rfl, rfl, rfl⟩
    · simp at h

lemma quoteTurn_shape (today max_date : Date) (llm : LLMResponse) (accumulated : SlotMap)
    (db : Db) (resp : ConversationResponse)
    (h : (quoteTurn today max_date llm accumulated db).1 = .ok resp) :
    resp.accumulated_slots = some accumulated ∧ resp.needs_confirmation = false
      ∧ resp.confirmation_data = none := by
  unfold quoteTurn at h
  split at h
  · exact attemptQuote_shape _ _ _ _ _ h
  · dsimp only at h
    split at h
    · exact attemptQuote_shape _ _ _ _ _ h
    · injection h with h
      subst h
      exact ⟨rfl, rfl, rfl⟩

lemma bookTurn_shape (today max_date : Date) (llm : LLMResponse) (accumulated : SlotMap)
    (db : Db) (resp : ConversationResponse)
    (h : (bookTurn today max_date llm accumulated db).1 = .ok resp) :
    resp.accumulated_slots = some accumulated
      ∧ (resp.needs_confirmation = true ↔ resp.confirmation_data.isSome)
      ∧ (resp.needs_confirmation = true → resp.intent = "book") := by
  unfold bookTurn at h
  dsimp only at h
  split at h
  · injection h with h
    subst h
    exact ⟨rfl, by simp, by simp⟩
  · split at h
    · simp at h
    · split at h
      · injection h with h
        subst h
        exact ⟨rfl, by simp, fun _ => rfl⟩
      · injection h with h
        subst h
        exact ⟨rfl, by simp, by simp⟩
      · simp at h

lemma cancelTurn_shape (llm : LLMResponse) (accumulated : SlotMap) (db : Db)
    (resp : ConversationResponse)
    (h : (cancelTurn llm accumulated db).1 = .ok resp) :
    resp.accumulated_slots = some accumulated
      ∧ (resp.needs_confirmation = true ↔ resp.confirmation_data.isSome)
      ∧ (resp.needs_confirmation = true → resp.intent = "cancel") := by
  unfold cancelTurn at h
  split at h
  · injection h with h
    subst h
    exact ⟨rfl, by simp, by simp⟩
  · split at h
    · injection h with h
      subst h
      exact ⟨rfl, by simp, by simp⟩
    · injection h with h
      subst h
      exact ⟨rfl, by simp, fun _ => rfl⟩

lemma trackTurn_shape (llm : LLMResponse) (accumulated : SlotMap) (db : Db)
    (resp : ConversationResponse)
    (h : (trackTurn llm accumulated db).1 = .ok resp) :
    resp.accumulated_slots = some accumulated ∧ resp.needs_confirmation = false
      ∧ resp.confirmation_data = none := by
  unfold trackTurn at h
  split at h
  · injection h with h
    subst h
    exact ⟨rfl, rfl, rfl⟩
  · split at h
    · injection h with h
      subst h
      exact ⟨rfl, rfl, rfl⟩
    · split at h
      · simp at h
      · split at h
        · injection h with h
          subst h
          exact ⟨rfl, rfl, rfl⟩
        · injection h with h
          subst h
          exact ⟨rfl, rfl, rfl⟩
        · simp at h

lemma dispatchIntent_shape (today max_date : Date) (llm : LLMResponse) (accumulated : SlotMap)
    (db : Db) (resp : ConversationResponse)
    (h : (dispatchIntent today max_date llm accumulated db).1 = .ok resp) :
    resp.accumulated_slots = some accumulated
      ∧ (resp.needs_confirmation = true ↔ resp.confirmation_data.isSome)
      ∧ (resp.needs_confirmation = true → resp.intent = "book" ∨ resp.intent = "cancel") := by
  unfold dispatchIntent at h
  split at h
  · injection h with h
    subst h
    exact ⟨rfl, by simp, by simp⟩
  · split at h
    · obtain ⟨h1, h2, h3⟩ := quoteTurn_shape _ _ _ _ _ _ h
      exact ⟨h1, by simp [h2, h3], by simp [h2]⟩
    · split at h
      · obtain ⟨h1, h2, h3⟩ := bookTurn_shape _ _ _ _ _ _ h
        exact ⟨h1, h2, fun hn => Or.inl (h3 hn)⟩
      · split at h
        · obtain ⟨h1, h2, h3⟩ := cancelTurn_shape _ _ _ _ h
          exact ⟨h1, h2, fun hn => Or.inr (h3 hn)⟩
        · split at h
          · obtain ⟨h1, h2, h3⟩ := trackTurn_shape _ _ _ _ h
            exact ⟨h1, by simp [h2, h3], by simp [h2]⟩
          · injection h with h
            subst h
            exact ⟨rfl, by simp, by simp⟩

lemma resolveBookConfirmation_shape (today max_date : Date) (now : ℕ) (freshHex : List Char)
    (pc : PendingConfirmation) (db : Db) (resp : ConversationResponse)
    (h : (resolveBookConfirmation today max_date now freshHex pc db).1 = .ok resp) :
    resp.accumulated_slots = none ∧ resp.needs_confirmation = false
      ∧ resp.confirmation_data = none := by
  unfold resolveBookConfirmation at h
  split at h
  · simp at h
  · split at h
    · injection h with h
      subst h
      exact ⟨rfl, rfl, rfl⟩
    · injection h with h
      subst h
      exact ⟨rfl, rfl, rfl⟩
    · simp at h

lemma resolveCancelConfirmation_shape (now : ℕ) (pc : PendingConfirmation) (db : Db)
    (resp : ConversationResponse)
    (h : (resolveCancelConfirmation now pc db).1 = .ok resp) :
    resp.accumulated_slots = none ∧ resp.needs_confirmation = false
      ∧ resp.confirmation_data = none := by
  unfold resolveCancelConfirmation at h
  split at h
  · simp at h
  · split at h
    · injection h with h
      subst h
      exact ⟨rfl, rfl, rfl⟩
    · injection h with h
      subst h
      exact ⟨rfl, rfl, rfl⟩
    · simp at h

/-- Every conversational response either carries the merged accumulated
slots, or stems from a pending-confirmation resolution branch and carries
none; needs_confirmation and the confirmation marker travel together and only
with intent book or cancel. -/
lemma conversation_shape (today max_date : Date) (now : ℕ) (freshHex : List Char)
    (llm : LLMResponse) (request : ConversationRequest) (db : Db)
    (resp : ConversationResponse)
    (h : (conversation today max_date now freshHex llm request db).1 = .ok resp) :
    (resp.accumulated_slots
        = some (mergeSlots (request.accumulated_slots.getD emptySlots) llm.slots)
      ∨ (request.pending_confirmation.isSome ∧ resp.accumulated_slots = none))
    ∧ (resp.needs_confirmation = true ↔ resp.confirmation_data.isSome)
    ∧ (resp.needs_confirmation = true → resp.intent = "book" ∨ resp.intent = "cancel") := by
  unfold conversation at h
  cases hpc : request.pending_confirmation with
  | none =>
    simp only [hpc] at h
    obtain ⟨h1, h2, h3⟩ := dispatchIntent_shape _ _ _ _ _ _ h
    exact ⟨Or.inl h1, h2, h3⟩
  | some pc =>
    simp only [hpc] at h
    split at h
    · split at h
      · obtain ⟨h1, h2, h3⟩ := resolveBookConfirmation_shape _ _ _ _ _ _ _ h
        exact ⟨Or.inr ⟨by simp [hpc], h1⟩, by simp [h2, h3], by simp [h2]⟩
      · split at h
        · obtain ⟨h1, h2, h3⟩ := resolveCancelConfirmation_shape _ _ _ _ h
          exact ⟨Or.inr ⟨by simp [hpc], h1⟩, by simp [h2, h3], by simp [h2]⟩
        · obtain ⟨h1, h2, h3⟩ := dispatchIntent_shape _ _ _ _ _ _ h
          exact ⟨Or.inl h1, h2, h3⟩
    · split at h
      · injection h with h
        subst h
        exact ⟨Or.inr ⟨by simp [hpc], rfl⟩, by simp, by simp⟩
      · obtain ⟨h1, h2, h3⟩ := dispatchIntent_shape _ _ _ _ _ _ h
        exact ⟨Or.inl h1, h2, h3⟩

/-- C1 witness: the rejections and an unconfirmed conversational turn at a
concrete store. -/
theorem c1_no_mutation_without_confirmation_witness :
    create_booking (2026, 1, 1) (2027, 1, 1) 0 []
        ⟨"JFK", "LHR", 5, none, "general", "2026-02-15", none, none, false⟩ ⟨[], []⟩
      = (.error (.http ⟨400, "Booking requires confirmation. Set confirmed=True to proceed."⟩),
         ⟨[], []⟩)
    ∧ cancel_booking 0 ⟨"CRG12345", false⟩ ⟨[], []⟩
      = (.error
          (.http ⟨400, "Cancellation requires confirmation. Set confirmed=True to proceed."⟩),
         ⟨[], []⟩)
    ∧ (conversation (2026, 1, 1) (2027, 1, 1) 0 [] ⟨"greeting", emptySlots, [], none⟩
        ⟨"hello there", none, none⟩ ⟨[], []⟩).2 = ⟨[], []⟩ := by
  have h := c1_no_mutation_without_confirmation (2026, 1, 1) (2027, 1, 1) 0 [] ⟨[], []⟩
  exact ⟨h.1 _ rfl, h.2.1 _ rfl, h.2.2 _ _ (Or.inl rfl)⟩

/-! ## Monotonic slot accumulation -/

/-- C2: a slot once set to a non-null value stays set across any sequence of
merges — the final value is the original one unless some turn extracted a
non-null value for the field; and within a conversational turn, whenever a
response carries accumulated slots they are exactly the caller-echoed ones
merged with the extractor's non-null fields, so null or absent extractor
output never erases an accumulated value. -/
theorem c2_monotonic_accumulation :
    (∀ (acc : SlotMap) (turns : List SlotMap) (k : SlotKey) (v : SVal),
      acc k = some v →
      ∃ w, (turns.foldl mergeSlots acc) k = some w
        ∧ (w = v ∨ ∃ t ∈ turns, t k = some w))
    ∧ (∀ (today max_date : Date) (now : ℕ) (freshHex : List Char) (llm : LLMResponse)
        (request : ConversationRequest) (db : Db) (resp : ConversationResponse) (m : SlotMap),
        (conversation today max_date now freshHex llm request db).1 = .ok resp →
        resp.accumulated_slots = some m →
        ∀ (k : SlotKey) (v : SVal), (request.accumulated_slots.getD emptySlots) k = some v →
          ∃ w, m k = some w ∧ (w = v ∨ llm.slots k = some w)) := by
  constructor
  · intro acc turns
    induction turns generalizing acc with
    | nil =>
      intro k v hv
      exact ⟨v, hv, Or.inl rfl⟩
    | cons t rest ih =>
      intro k v hv
      rw [List.foldl_cons]
      cases ht : t k with
      | none =>
        have hm : mergeSlots acc t k = some v := by simp [mergeSlots, ht, hv]
        obtain ⟨w, hw, hor⟩ := ih (mergeSlots acc t) k v hm
        refine ⟨w, hw, ?_⟩
        rcases hor with h | ⟨u, hu, huk⟩
        · exact Or.inl h
        · exact Or.inr ⟨u, List.mem_cons_of_mem _ hu, huk⟩
      | some x =>
        have hm : mergeSlots acc t k = some x := by simp [mergeSlots, ht]
        obtain ⟨w, hw, hor⟩ := ih (mergeSlots acc t) k x hm
        refine ⟨w, hw, Or.inr ?_⟩
        rcases hor with rfl | ⟨u, hu, huk⟩
        · exact ⟨t, List.mem_cons_self t rest, ht⟩
        · exact ⟨u, List.mem_cons_of_mem _ hu, huk⟩
  · intro today max_date now freshHex llm request db resp m h hm k v hv
    obtain ⟨hacc, -, -⟩ := conversation_shape _ _ _ _ _ _ _ _ h
    rcases hacc with hacc | ⟨-, hnone⟩
    · rw [hm] at hacc
      injection hacc with hacc
      subst hacc
      cases hx : llm.slots k with
      | some x => exact ⟨x, by simp [mergeSlots, hx], Or.inr rfl⟩
      | none => exact ⟨v, by simp [mergeSlots, hx, hv], Or.inl rfl⟩
    · rw [hm] at hnone
      cases hnone

/-- A concrete accumulated-slots dictionary for the C2 witness. -/
def c2acc : SlotMap := fun k => if k = SlotKey.origin then some (.s "JFK") else none

/-- C2 witness: an origin survives a turn whose extractor reports nothing. -/
theorem c2_monotonic_accumulation_witness :
    ∃ w, ([emptySlots].foldl mergeSlots c2acc) SlotKey.origin = some w
      ∧ (w = SVal.s "JFK" ∨ ∃ t ∈ [emptySlots], t SlotKey.origin = some w) :=
  c2_monotonic_accumulation.1 c2acc [emptySlots] SlotKey.origin (SVal.s "JFK") rfl

/-! ## The accumulated-slots echo across branches -/

/-- The caller-echoed accumulated slots used in the C3 counterexample. -/
def c3acc : SlotMap := fun k => if k = SlotKey.origin then some (.s "JFK") else none

/-- C3 counterexample: a pending-confirmation resolution branch (here the
negative resolution) returns `accumulated_slots` absent even though the
caller echoed a non-empty dictionary — not every branch returns the
accumulated slots. -/
theorem c3_counterexample :
    ∃ resp, (conversation (2026, 1, 1) (2027, 1, 1) 0 []
        ⟨"clarification", emptySlots, [], none⟩
        ⟨"no", some ⟨some "cancel", emptyBookingData, some (.s "CRGAAAA1111")⟩, some c3acc⟩
        ⟨[], []⟩).1 = .ok resp
      ∧ resp.accumulated_slots = none ∧ c3acc SlotKey.origin = some (.s "JFK") :=
  ⟨_, rfl, rfl, rfl⟩

/-- C3 (amended): the five pending-confirmation resolution branches
(affirmative book, affirmative cancel — matched in that order — and the
negative resolution) return `accumulated_slots` absent; every other branch —
no pending marker, a marker with a message matching neither token class, or
an affirmative message with a marker of unrecognised type — returns the
merged accumulated slots; needs_confirmation is set exactly when a
confirmation marker is attached, and only with intent book or cancel. -/
theorem c3_accumulated_slots_amended (today max_date : Date) (now : ℕ)
    (freshHex : List Char) (llm : LLMResponse) (request : ConversationRequest) (db : Db)
    (resp : ConversationResponse)
    (h : (conversation today max_date now freshHex llm request db).1 = .ok resp) :
    (∀ pc, request.pending_confirmation = some pc →
      (isAffirmative request.message = true → (pc.type == some "book") = true →
        resp.accumulated_slots = none)
      ∧ (isAffirmative request.message = true → (pc.type == some "book") = false →
          (pc.type == some "cancel") = true →
        resp.accumulated_slots = none)
      ∧ (isAffirmative request.message = true → (pc.type == some "book") = false →
          (pc.type == some "cancel") = false →
        resp.accumulated_slots
          = some (mergeSlots (request.accumulated_slots.getD emptySlots) llm.slots))
      ∧ (isAffirmative request.message = false → isNegative request.message = true →
        resp.accumulated_slots = none)
      ∧ (isAffirmative request.message = false → isNegative request.message = false →
        resp.accumulated_slots
          = some (mergeSlots (request.accumulated_slots.getD emptySlots) llm.slots)))
    ∧ (request.pending_confirmation = none →
        resp.accumulated_slots
          = some (mergeSlots (request.accumulated_slots.getD emptySlots) llm.slots))
    ∧ (resp.needs_confirmation = true ↔ resp.confirmation_data.isSome)
    ∧ (resp.needs_confirmation = true → resp.intent = "book" ∨ resp.intent = "cancel") := by
  obtain ⟨-, h2, h3⟩ := conversation_shape today max_date now freshHex llm request db resp h
  refine ⟨?_, ?_, h2, h3⟩
  · intro pc hpc
    unfold conversation at h
    simp only [hpc] at h
    refine ⟨?_, ?_, ?_, ?_, ?_⟩
    · intro haff hbook
      simp only [haff, hbook, eq_self_iff_true, if_true] at h
      exact (resolveBookConfirmation_shape _ _ _ _ _ _ _ h).1
    · intro haff hbook hcancel
      simp only [haff, hbook, hcancel, eq_self_iff_true, if_true, Bool.false_eq_true,
        if_false] at h
      exact (resolveCancelConfirmation_shape _ _ _ _ h).1
    · intro haff hbook hcancel
      simp only [haff, hbook, hcancel, eq_self_iff_true, if_true, Bool.false_eq_true,
        if_false] at h
      exact (dispatchIntent_shape _ _ _ _ _ _ h).1
    · intro haff hneg
      simp only [haff, hneg, eq_self_iff_true, if_true, Bool.false_eq_true, if_false] at h
      injection h with h
      subst h
      rfl
    · intro haff hneg
      simp only [haff, hneg, Bool.false_eq_true, if_false] at h
      exact (dispatchIntent_shape _ _ _ _ _ _ h).1
  · intro hpcnone
    unfold conversation at h
    simp only [hpcnone] at h
    exact (dispatchIntent_shape _ _ _ _ _ _ h).1

/-- C3 witness: a no-marker greeting turn carries the merged accumulated
slots, set together with an absent confirmation marker. -/
theorem c3_accumulated_slots_amended_witness :
    ∃ resp, (conversation (2026, 1, 1) (2027, 1, 1) 0 []
        ⟨"greeting", emptySlots, [], none⟩ ⟨"hi", none, none⟩ ⟨[], []⟩).1 = .ok resp
      ∧ resp.accumulated_slots = some (mergeSlots emptySlots emptySlots)
      ∧ (resp.needs_confirmation = true ↔ resp.confirmation_data.isSome) := by
  refine ⟨⟨greetingText, "greeting", false, none, none,
    some (mergeSlots emptySlots emptySlots)⟩, rfl, ?_, ?_⟩
  · exact (c3_accumulated_slots_amended (2026, 1, 1) (2027, 1, 1) 0 []
      ⟨"greeting", emptySlots, [], none⟩ ⟨"hi", none, none⟩ ⟨[], []⟩ _ rfl).2.1 rfl
  · exact (c3_accumulated_slots_amended (2026, 1, 1) (2027, 1, 1) 0 []
      ⟨"greeting", emptySlots, [], none⟩ ⟨"hi", none, none⟩ ⟨[], []⟩ _ rfl).2.2.1

/-! ## The quote branch's missing-slot recheck -/

/-- C4 counterexample: a quote turn whose extractor reports an empty
`missing_slots` list, with every required field still null in the accumulated
slots, does not return a clarification prompt — the quote is attempted at
once and the turn ends in a propagated validation error. -/
theorem c4_counterexample :
    (conversation (2026, 1, 1) (2027, 1, 1) 0 [] ⟨"quote", emptySlots, [], none⟩
        ⟨"I want a quote", none, none⟩ ⟨[], []⟩).1
      = .error (.py "ValidationError: QuoteRequest missing required field")
    ∧ emptySlots SlotKey.weight = none :=
  ⟨rfl, rfl⟩

/-- C4 (amended): the quote branch's missing-field recheck only filters the
extractor's reported `missing_slots` list against truthiness in the merged
accumulated slots — an entry of that list still falsy yields a clarification
response, but an empty extractor list sends the turn straight to the quote
attempt regardless of null required fields. -/
theorem c4_missing_recheck_amended (today max_date : Date) (now : ℕ) (freshHex : List Char)
    (llm : LLMResponse) (request : ConversationRequest) (db : Db)
    (hpc : request.pending_confirmation = none) (hq : llm.intent_type = "quote") :
    (llm.missing_slots = [] →
      conversation today max_date now freshHex llm request db =
        attemptQuote today max_date
          (mergeSlots (request.accumulated_slots.getD emptySlots) llm.slots) db)
    ∧ (∀ slot ∈ llm.missing_slots,
        truthyOpt (getSlotByName
            (mergeSlots (request.accumulated_slots.getD emptySlots) llm.slots) slot) = false →
        ∃ resp, (conversation today max_date now freshHex llm request db).1 = .ok resp
          ∧ resp.intent = "quote" ∧ resp.needs_confirmation = false
          ∧ resp.accumulated_slots
              = some (mergeSlots (request.accumulated_slots.getD emptySlots) llm.slots)) := by
  have hconv : conversation today max_date now freshHex llm request db
      = quoteTurn today max_date llm
          (mergeSlots (request.accumulated_slots.getD emptySlots) llm.slots) db := by
    unfold conversation dispatchIntent
    simp [hpc, hq]
  rw [hconv]
  constructor
  · intro hempty
    unfold quoteTurn
    rw [if_pos (by simp [hempty])]
  · intro slot hslot hfalsy
    unfold quoteTurn
    rw [if_neg ?hne]
    case hne =>
      cases hms : llm.missing_slots with
      | nil => rw [hms] at hslot; cases hslot
      | cons a l => simp [hms]
    dsimp only
    rw [if_neg ?hfe]
    case hfe =>
      have hmem : slot ∈ llm.missing_slots.filter
          (fun s => !(truthyOpt (getSlotByName
            (mergeSlots (request.accumulated_slots.getD emptySlots) llm.slots) s))) :=
        List.mem_filter.mpr ⟨hslot, by simp [hfalsy]⟩
      intro hcontra
      rw [List.isEmpty_iff] at hcontra
      rw [hcontra] at hmem
      cases hmem
    exact ⟨_, rfl, rfl, rfl, rfl⟩

/-- C4 witness: an extractor-listed slot still null in the accumulated slots
yields a clarification response. -/
theorem c4_missing_recheck_amended_witness :
    ∃ resp, (conversation (2026, 1, 1) (2027, 1, 1) 0 []
        ⟨"quote", emptySlots, ["weight"], none⟩ ⟨"quote please", none, none⟩ ⟨[], []⟩).1
          = .ok resp
      ∧ resp.intent = "quote" ∧ resp.needs_confirmation = false
      ∧ resp.accumulated_slots = some (mergeSlots emptySlots emptySlots) := by
  have h := (c4_missing_recheck_amended (2026, 1, 1) (2027, 1, 1) 0 []
      ⟨"quote", emptySlots, ["weight"], none⟩ ⟨"quote please", none, none⟩ ⟨[], []⟩
      rfl rfl).2 "weight" (by simp) (by decide)
  exact h

/-! ## Pending-confirmation token matching -/

/-- C8: with a pending confirmation, the turn is affirmative when the
lowercased message contains any affirmation token — checked before the
negation set, so a message with both classes resolves affirmatively; a
negative-only message clears the pending confirmation and returns the generic
cancelled-action message with intent clarification; a message with neither
class falls through to normal intent dispatch. -/
theorem c8_confirmation_token_resolution (today max_date : Date) (now : ℕ)
    (freshHex : List Char) (llm : LLMResponse) (request : ConversationRequest) (db : Db)
    (pc : PendingConfirmation) (hpc : request.pending_confirmation = some pc) :
    isAffirmative request.message
        = AFFIRM_WORDS.any (fun w => strContains (pyLower request.message) w)
    ∧ isNegative request.message
        = NEG_WORDS.any (fun w => strContains (pyLower request.message) w)
    ∧ (isAffirmative request.message = true →
        conversation today max_date now freshHex llm request db =
          if pc.type == some "book" then
            resolveBookConfirmation today max_date now freshHex pc db
          else if pc.type == some "cancel" then resolveCancelConfirmation now pc db
          else dispatchIntent today max_date llm
            (mergeSlots (request.accumulated_slots.getD emptySlots) llm.slots) db)
    ∧ (isAffirmative request.message = false → isNegative request.message = true →
        conversation today max_date now freshHex llm request db =
          (.ok ⟨"Okay, I've cancelled that action. How else can I help you?",
            "clarification", false, none, none, none⟩, db))
    ∧ (isAffirmative request.message = false → isNegative request.message = false →
        conversation today max_date now freshHex llm request db =
          dispatchIntent today max_date llm
            (mergeSlots (request.accumulated_slots.getD emptySlots) llm.slots) db) := by
  refine ⟨rfl, rfl, ?_, ?_, ?_⟩
  · intro haff
    unfold conversation
    simp [hpc, haff]
  · intro haff hneg
    unfold conversation
    simp [hpc, haff, hneg]
  · intro haff hneg
    unfold conversation
    simp [hpc, haff, hneg]

/-- The pending marker used by the C8 witness. -/
def c8pc : PendingConfirmation := ⟨some "cancel", emptyBookingData, some (.s "CRGAAAA1111")⟩

/-- C8 witness: a negative-only message resolves to the generic cancellation,
and a message holding both classes of tokens resolves affirmatively. -/
theorem c8_confirmation_token_resolution_witness :
    conversation (2026, 1, 1) (2027, 1, 1) 0 [] ⟨"clarification", emptySlots, [], none⟩
        ⟨"no", some c8pc, none⟩ ⟨[], []⟩ =
      (.ok ⟨"Okay, I've cancelled that action. How else can I help you?", "clarification",
        false, none, none, none⟩, ⟨[], []⟩)
    ∧ conversation (2026, 1, 1) (2027, 1, 1) 0 [] ⟨"clarification", emptySlots, [], none⟩
        ⟨"no, confirm it", some c8pc, none⟩ ⟨[], []⟩ =
      (if c8pc.type == some "book" then
        resolveBookConfirmation (2026, 1, 1) (2027, 1, 1) 0 [] c8pc ⟨[], []⟩
      else if c8pc.type == some "cancel" then resolveCancelConfirmation 0 c8pc ⟨[], []⟩
      else dispatchIntent (2026, 1, 1) (2027, 1, 1) ⟨"clarification", emptySlots, [], none⟩
        (mergeSlots emptySlots emptySlots) ⟨[], []⟩) := by
  constructor
  · exact (c8_confirmation_token_resolution (2026, 1, 1) (2027, 1, 1) 0 []
      ⟨"clarification", emptySlots, [], none⟩ ⟨"no", some c8pc, none⟩ ⟨[], []⟩ c8pc
      rfl).2.2.2.1 (by decide) (by decide)
  · exact (c8_confirmation_token_resolution (2026, 1, 1) (2027, 1, 1) 0 []
      ⟨"clarification", emptySlots, [], none⟩ ⟨"no, confirm it", some c8pc, none⟩ ⟨[], []⟩ c8pc
      rfl).2.2.1 (by decide)

end CargoBot
